import Mathlib

/-
Verification of the scoring engine of the wot-blitz-api repository.

The scoring engine lives in the ScoringService class (src/services/scoringService,
shipped inside src/routes/scoringRoutes.ts of the source snapshot), with the
weight-validation HTTP handler in the ScoringController (shipped inside
src/middleware/errorHandler.ts) and the storage collaborator in
src/models/tankModel.ts.

Number model: JavaScript numbers are IEEE doubles.  Finite arithmetic is
modelled exactly over the rationals; rounding error is out of scope (the
properties checked here, clamping and exact branch structure, are insensitive
to it).  Division in the rational model is total with x / 0 = 0, which hides
the IEEE special values Infinity and NaN; the places where the source can
actually divide by zero are therefore additionally modelled over the JsNum
type below, which represents those special values explicitly.
-/

namespace WotBlitz

/-- TankType enum from src/types (src/unnamed/part_000). -/
inductive TankType where
  | light
  | medium
  | heavy
  | destroyer
  | spg
deriving DecidableEq

/-- Tank record from src/types: raw combat attributes plus the three nullable
derived scores.  Numeric attributes are modelled as rationals (exact finite
JavaScript numbers). -/
structure Tank where
  id : Int
  name : String
  tier : Int
  type : TankType
  nation : String
  is_premium : Bool
  health : ℚ
  armor_front : ℚ
  armor_side : ℚ
  armor_rear : ℚ
  gun_damage : ℚ
  gun_penetration : ℚ
  gun_rof : ℚ
  mobility_speed : ℚ
  mobility_power : ℚ
  score_overall : Option ℚ
  score_tier : Option ℚ
  score_type : Option ℚ
deriving DecidableEq

/-- ScoringWeights record from src/types: the six weight fields, in the
declaration order of the source (which is also the JavaScript object key
order that Object.values iterates in updateScoringWeights). -/
structure ScoringWeights where
  damage : ℚ
  winRate : ℚ
  survival : ℚ
  armor : ℚ
  mobility : ℚ
  penetration : ℚ
deriving DecidableEq

/-- Default weights of ScoringService (the initial value of the mutable
this.defaultWeights field). -/
def defaultWeights : ScoringWeights :=
  { damage := 0.25
    winRate := 0.20
    survival := 0.15
    armor := 0.15
    mobility := 0.15
    penetration := 0.10 }

/-- Reference normalization ceilings of ScoringService (this.referenceValues). -/
structure ReferenceValues where
  maxDamage : ℚ
  maxHealth : ℚ
  maxArmor : ℚ
  maxSpeed : ℚ
  maxPenetration : ℚ
  maxPower : ℚ

def referenceValues : ReferenceValues :=
  { maxDamage := 750
    maxHealth := 2500
    maxArmor := 300
    maxSpeed := 70
    maxPenetration := 300
    maxPower := 1000 }

/-- ScoringService.calculateDamageScore. -/
def calculateDamageScore (tank : Tank) : ℚ :=
  let damagePerShot := tank.gun_damage
  let rateOfFire := tank.gun_rof
  let dpm := damagePerShot * rateOfFire
  let damageRatio := damagePerShot / referenceValues.maxDamage
  let dpmRatio := dpm / (referenceValues.maxDamage * 10)
  min 100 ((damageRatio * 0.6 + dpmRatio * 0.4) * 100)

/-- ScoringService.calculateSurvivalScore. -/
def calculateSurvivalScore (tank : Tank) : ℚ :=
  let healthRatio := tank.health / referenceValues.maxHealth
  let avgArmorRatio := (tank.armor_front + tank.armor_side + tank.armor_rear) / 3
    / referenceValues.maxArmor
  min 100 ((healthRatio * 0.7 + avgArmorRatio * 0.3) * 100)

/-- ScoringService.calculateArmorScore. -/
def calculateArmorScore (tank : Tank) : ℚ :=
  let frontArmorRatio := tank.armor_front / referenceValues.maxArmor
  let sideArmorRatio := tank.armor_side / referenceValues.maxArmor
  let rearArmorRatio := tank.armor_rear / referenceValues.maxArmor
  let weightedArmor := frontArmorRatio * 0.5 + sideArmorRatio * 0.3 + rearArmorRatio * 0.2
  min 100 (weightedArmor * 100)

/-- ScoringService.calculateMobilityScore, in the exact rational model
(division is total with x / 0 = 0; see jsMobilityScore for the model that
keeps the IEEE special values produced when tank.health = 0). -/
def calculateMobilityScore (tank : Tank) : ℚ :=
  let speedRatio := tank.mobility_speed / referenceValues.maxSpeed
  let powerRatio := tank.mobility_power / referenceValues.maxPower
  let powerToWeightRatio := tank.mobility_power / (tank.health / 1000)
  let powerToWeightScore := min 1 (powerToWeightRatio / 30)
  min 100 ((speedRatio * 0.4 + powerRatio * 0.3 + powerToWeightScore * 0.3) * 100)

/-- ScoringService.calculatePenetrationScore. -/
def calculatePenetrationScore (tank : Tank) : ℚ :=
  let penetrationRatio := tank.gun_penetration / referenceValues.maxPenetration
  min 100 (penetrationRatio * 100)

/-- ScoringService.calculateWinRateScore (the simulated win-rate proxy). -/
def calculateWinRateScore (tank : Tank) : ℚ :=
  let damageScore := calculateDamageScore tank
  let survivalScore := calculateSurvivalScore tank
  let mobilityScore := calculateMobilityScore tank
  let balanceScore := (damageScore + survivalScore + mobilityScore) / 3
  let typeModifier : ℚ :=
    match tank.type with
    | TankType.heavy => 1.1
    | TankType.medium => 1.05
    | TankType.light => 0.95
    | TankType.destroyer => 0.9
    | TankType.spg => 1.0
  min 100 (balanceScore * typeModifier)

/-- JavaScript Math.round on an exact rational argument: round half toward
positive infinity. -/
def jsRound (q : ℚ) : ℤ := ⌊q + 1 / 2⌋

/-- ScoringService.calculateOverallScore.  The weights argument stands for
the weights parameter of the source, whose default is the current value of
the mutable this.defaultWeights field; callers below pass it explicitly. -/
def calculateOverallScore (tank : Tank) (weights : ScoringWeights) : ℚ :=
  let damageScore := calculateDamageScore tank
  let survivalScore := calculateSurvivalScore tank
  let armorScore := calculateArmorScore tank
  let mobilityScore := calculateMobilityScore tank
  let penetrationScore := calculatePenetrationScore tank
  let winRateScore := calculateWinRateScore tank
  let overallScore :=
    damageScore * weights.damage +
    winRateScore * weights.winRate +
    survivalScore * weights.survival +
    armorScore * weights.armor +
    mobilityScore * weights.mobility +
    penetrationScore * weights.penetration
  (jsRound (overallScore * 100) : ℚ) / 100

/-- Cohort-average selection block shared verbatim by
ScoringService.calculateTierScore and ScoringService.calculateTypeScore:
a falsy cached value (null, or the number 0) triggers recomputation; a
non-empty cohort yields the arithmetic mean of the stored overall scores
(null treated as 0 by the source expression t.score_overall || 0); only an
empty cohort falls back to the constant 75. -/
def cohortAverage (cached : Option ℚ) (cohort : List Tank) : ℚ :=
  let recomputed :=
    if cohort.length > 0 then
      (cohort.map fun t => t.score_overall.getD 0).sum / cohort.length
    else 75
  match cached with
  | some v => if v = 0 then recomputed else v
  | none => recomputed

/-- ScoringService.calculateTierScore as a pure function: the cache read and
the cohort query are passed in as explicit values (cached is the cache entry
tier_average_(tier), tierTanks is the storage result for the tier cohort);
sw is the current value of this.defaultWeights, used by the inner
calculateOverallScore call through its default argument. -/
def calculateTierScore (sw : ScoringWeights) (cached : Option ℚ) (tierTanks : List Tank)
    (tank : Tank) : ℚ :=
  let tierAverage := cohortAverage cached tierTanks
  let overallScore := calculateOverallScore tank sw
  let relativeScore := overallScore / tierAverage * 75
  min 100 (max 0 relativeScore)

/-- ScoringService.calculateTypeScore as a pure function, identical in
structure to calculateTierScore but over the type cohort. -/
def calculateTypeScore (sw : ScoringWeights) (cached : Option ℚ) (typeTanks : List Tank)
    (tank : Tank) : ℚ :=
  let typeAverage := cohortAverage cached typeTanks
  let overallScore := calculateOverallScore tank sw
  let relativeScore := overallScore / typeAverage * 75
  min 100 (max 0 relativeScore)

/-- Partial weight update: the Partial(ScoringWeights) argument of
ScoringService.updateScoringWeights, one optional entry per recognized key. -/
structure PartialWeights where
  damage : Option ℚ
  winRate : Option ℚ
  survival : Option ℚ
  armor : Option ℚ
  mobility : Option ℚ
  penetration : Option ℚ
deriving DecidableEq

/-- JavaScript object spread of the source line
this.defaultWeights = ( ...this.defaultWeights, ...newWeights ): every key
present in the update overrides the current value. -/
def mergeWeights (cur : ScoringWeights) (newWeights : PartialWeights) : ScoringWeights :=
  { damage := newWeights.damage.getD cur.damage
    winRate := newWeights.winRate.getD cur.winRate
    survival := newWeights.survival.getD cur.survival
    armor := newWeights.armor.getD cur.armor
    mobility := newWeights.mobility.getD cur.mobility
    penetration := newWeights.penetration.getD cur.penetration }

/-- Object.values(this.defaultWeights).reduce((sum, weight) => sum + weight, 0)
over the declaration-order keys. -/
def sumWeights (w : ScoringWeights) : ℚ :=
  w.damage + w.winRate + w.survival + w.armor + w.mobility + w.penetration

/-- ScoringService.updateScoringWeights: merge the partial update into the
current weights, then, when the total differs from 1, divide every weight by
the total.  The returned set is also the value installed in the mutable
this.defaultWeights field (the source mutates the field in place and returns
it). -/
def updateScoringWeights (cur : ScoringWeights) (newWeights : PartialWeights) :
    ScoringWeights :=
  let merged := mergeWeights cur newWeights
  let total := sumWeights merged
  if total = 1 then merged
  else
    { damage := merged.damage / total
      winRate := merged.winRate / total
      survival := merged.survival / total
      armor := merged.armor / total
      mobility := merged.mobility / total
      penetration := merged.penetration / total }

/-- The six recognized weight names, used to address individual fields in
statements about untouched weights. -/
inductive WeightKey where
  | damage
  | winRate
  | survival
  | armor
  | mobility
  | penetration
deriving DecidableEq

/-- Field lookup on a full weight set. -/
def ScoringWeights.get (w : ScoringWeights) : WeightKey → ℚ
  | WeightKey.damage => w.damage
  | WeightKey.winRate => w.winRate
  | WeightKey.survival => w.survival
  | WeightKey.armor => w.armor
  | WeightKey.mobility => w.mobility
  | WeightKey.penetration => w.penetration

/-- Field lookup on a partial update. -/
def PartialWeights.get (w : PartialWeights) : WeightKey → Option ℚ
  | WeightKey.damage => w.damage
  | WeightKey.winRate => w.winRate
  | WeightKey.survival => w.survival
  | WeightKey.armor => w.armor
  | WeightKey.mobility => w.mobility
  | WeightKey.penetration => w.penetration

/-
The HTTP weight-update handler, ScoringController.updateWeights.
The request body weights object is modelled as its ordered key/value list;
a value that is not a JavaScript number is the ReqVal.other case (the source
checks typeof weights[key] !== (the string number)).
-/

/-- A value of the parsed request object. -/
inductive ReqVal where
  | num (q : ℚ)
  | other
deriving DecidableEq

/-- The validKeys array of ScoringController.updateWeights. -/
def validKeys : List String :=
  ["damage", "winRate", "survival", "armor", "mobility", "penetration"]

/-- Outcome of the handler: the spec error taxonomy names InvalidWeightKey
and InvalidWeightValue for the two 400 responses the controller sends. -/
inductive WeightUpdateResponse where
  | invalidWeightKey (key : String)
  | invalidWeightValue (key : String)
  | updated (weights : ScoringWeights)
deriving DecidableEq

/-- The validation loop of ScoringController.updateWeights: iterate over the
provided keys in order; an unrecognized key, a non-number value, or a value
outside the closed interval from 0 to 1 stops the loop with the matching
error response. -/
def checkWeightEntries : List (String × ReqVal) → Option WeightUpdateResponse
  | [] => none
  | (key, v) :: rest =>
    if key ∈ validKeys then
      match v with
      | ReqVal.num q =>
        if q < 0 ∨ 1 < q then some (WeightUpdateResponse.invalidWeightValue key)
        else checkWeightEntries rest
      | ReqVal.other => some (WeightUpdateResponse.invalidWeightValue key)
    else some (WeightUpdateResponse.invalidWeightKey key)

/-- Conversion of the validated request object into the partial update passed
to ScoringService.updateScoringWeights (object key lookup). -/
def toPartialWeights (req : List (String × ReqVal)) : PartialWeights :=
  let lookupNum := fun key =>
    match req.lookup key with
    | some (ReqVal.num q) => some q
    | _ => none
  { damage := lookupNum "damage"
    winRate := lookupNum "winRate"
    survival := lookupNum "survival"
    armor := lookupNum "armor"
    mobility := lookupNum "mobility"
    penetration := lookupNum "penetration" }

/-- ScoringController.updateWeights: validate the whole request first; only
when every entry passes is ScoringService.updateScoringWeights called.  The
function returns the response together with the service weight state after
the call (the state is unchanged on every validation failure because the
service is never invoked). -/
def updateWeightsHandler (cur : ScoringWeights) (req : List (String × ReqVal)) :
    WeightUpdateResponse × ScoringWeights :=
  match checkWeightEntries req with
  | some resp => (resp, cur)
  | none =>
    let w := updateScoringWeights cur (toPartialWeights req)
    (WeightUpdateResponse.updated w, w)

/-- Validity of a single request entry, as a boolean: recognized key and
numeric value inside the closed interval from 0 to 1. -/
def entryValidB : String × ReqVal → Bool
  | (key, ReqVal.num q) => decide (key ∈ validKeys) && decide (0 ≤ q) && decide (q ≤ 1)
  | (_, ReqVal.other) => false

/-- ScoringService.getCurrentWeights returns an object spread copy of
this.defaultWeights; the heap model for the aliasing claim is further below. -/
def getCurrentWeightsValue (sw : ScoringWeights) : ScoringWeights :=
  { damage := sw.damage
    winRate := sw.winRate
    survival := sw.survival
    armor := sw.armor
    mobility := sw.mobility
    penetration := sw.penetration }

/-
JsNum: JavaScript number values with the IEEE special values kept explicit.
Finite values are exact rationals (rounding out of scope); negative zero is
identified with zero, which is sound here because every divisor whose sign
could matter is a non-negative constant or attribute.
-/

/-- A JavaScript number: a finite value, NaN, or one of the two infinities. -/
inductive JsNum where
  | num (q : ℚ)
  | nan
  | inf
  | ninf
deriving DecidableEq

namespace JsNum

/-- JavaScript addition. -/
def add : JsNum → JsNum → JsNum
  | num a, num b => num (a + b)
  | nan, _ => nan
  | _, nan => nan
  | inf, ninf => nan
  | ninf, inf => nan
  | inf, _ => inf
  | _, inf => inf
  | ninf, _ => ninf
  | _, ninf => ninf

/-- JavaScript multiplication. -/
def mul : JsNum → JsNum → JsNum
  | num a, num b => num (a * b)
  | nan, _ => nan
  | _, nan => nan
  | inf, num b => if b = 0 then nan else if 0 < b then inf else ninf
  | num a, inf => if a = 0 then nan else if 0 < a then inf else ninf
  | ninf, num b => if b = 0 then nan else if 0 < b then ninf else inf
  | num a, ninf => if a = 0 then nan else if 0 < a then ninf else inf
  | inf, inf => inf
  | inf, ninf => ninf
  | ninf, inf => ninf
  | ninf, ninf => inf

/-- JavaScript division; a zero divisor is positive zero. -/
def div : JsNum → JsNum → JsNum
  | num a, num b =>
    if b = 0 then (if a = 0 then nan else if 0 < a then inf else ninf)
    else num (a / b)
  | nan, _ => nan
  | _, nan => nan
  | inf, num b => if 0 ≤ b then inf else ninf
  | ninf, num b => if 0 ≤ b then ninf else inf
  | inf, inf => nan
  | inf, ninf => nan
  | ninf, inf => nan
  | ninf, ninf => nan
  | num _, inf => num 0
  | num _, ninf => num 0

/-- JavaScript Math.min: NaN propagates. -/
def jsMin : JsNum → JsNum → JsNum
  | nan, _ => nan
  | _, nan => nan
  | num a, num b => num (min a b)
  | ninf, _ => ninf
  | _, ninf => ninf
  | inf, x => x
  | x, inf => x

/-- Whether a JavaScript number is a real value between 0 and 100; NaN and
the infinities are not. -/
def isScoreInRange : JsNum → Bool
  | num q => decide (0 ≤ q) && decide (q ≤ 100)
  | _ => false

end JsNum

/-- ScoringService.calculateMobilityScore over JsNum: the same source lines
as calculateMobilityScore, keeping the IEEE values produced by the division
tank.mobility_power / (tank.health / 1000) when tank.health is 0. -/
def jsMobilityScore (tank : Tank) : JsNum :=
  let speedRatio := JsNum.div (JsNum.num tank.mobility_speed) (JsNum.num referenceValues.maxSpeed)
  let powerRatio := JsNum.div (JsNum.num tank.mobility_power) (JsNum.num referenceValues.maxPower)
  let powerToWeightRatio :=
    JsNum.div (JsNum.num tank.mobility_power)
      (JsNum.div (JsNum.num tank.health) (JsNum.num 1000))
  let powerToWeightScore := JsNum.jsMin (JsNum.num 1) (JsNum.div powerToWeightRatio (JsNum.num 30))
  JsNum.jsMin (JsNum.num 100)
    (JsNum.mul
      (JsNum.add
        (JsNum.add (JsNum.mul speedRatio (JsNum.num 0.4)) (JsNum.mul powerRatio (JsNum.num 0.3)))
        (JsNum.mul powerToWeightScore (JsNum.num 0.3)))
      (JsNum.num 100))

/-
Heap model for ScoringService.getCurrentWeights.  JavaScript objects are
mutable heap cells; the service field this.defaultWeights holds a reference.
Addresses are indices into a growing list of ScoringWeights cells.
-/

/-- Service heap state: the cells and the address held by the
this.defaultWeights field. -/
structure ServiceState where
  heap : List ScoringWeights
  cur : ℕ

/-- Read the object at an address. -/
def readWeights (s : ServiceState) (a : ℕ) : ScoringWeights :=
  s.heap.getD a defaultWeights

/-- Mutate the object at an address in place (what a caller can do to any
reference it holds). -/
def writeWeights (s : ServiceState) (a : ℕ) (w : ScoringWeights) : ServiceState :=
  { s with heap := s.heap.set a w }

/-- ScoringService.getCurrentWeights: allocate a fresh object initialized by
spreading the fields of the current weights object, return its address; the
service field is untouched. -/
def getCurrentWeights (s : ServiceState) : ServiceState × ℕ :=
  let a := s.heap.length
  ({ s with heap := s.heap ++ [getCurrentWeightsValue (readWeights s s.cur)] }, a)

/-
Effectful layer.  Awaited collaborator calls (cache, storage) can reject;
they are modelled as oracle functions into Except.  The oracle is passed
explicitly, so a theorem quantifying over every ScoringEnv covers every
behaviour of the persistence and cache collaborators, including throwing.
-/

/-- Collaborator oracle: the cache reads and writes, the cohort queries, the
score persistence call (TankModel.updateTankScores), and the per-tank cache
invalidation used by the service. -/
structure ScoringEnv (ε : Type) where
  tierCacheGet : Int → Except ε (Option ℚ)
  typeCacheGet : TankType → Except ε (Option ℚ)
  tierTanksGet : Int → Except ε (List Tank)
  typeTanksGet : TankType → Except ε (List Tank)
  tierCacheSet : Int → ℚ → Except ε Unit
  typeCacheSet : TankType → ℚ → Except ε Unit
  persistScores : Int → ℚ → ℚ → ℚ → Except ε (Option Tank)
  invalidateScoreCache : Tank → Except ε Unit

/-- Recompute-and-cache branch of ScoringService.calculateTierScore, entered
when the cached average is falsy. -/
def recomputeTierAverage {ε : Type} (env : ScoringEnv ε) (tank : Tank) : Except ε ℚ := do
  let tierTanks ← env.tierTanksGet tank.tier
  if tierTanks.length > 0 then
    let totalScore := (tierTanks.map fun t => t.score_overall.getD 0).sum
    let tierAverage := totalScore / tierTanks.length
    let _ ← env.tierCacheSet tank.tier tierAverage
    pure tierAverage
  else
    pure 75

/-- ScoringService.calculateTierScore with its awaited collaborator calls. -/
def calculateTierScoreM {ε : Type} (env : ScoringEnv ε) (sw : ScoringWeights) (tank : Tank) :
    Except ε ℚ := do
  let cached ← env.tierCacheGet tank.tier
  let tierAverage ←
    match cached with
    | some v => if v = 0 then recomputeTierAverage env tank else pure v
    | none => recomputeTierAverage env tank
  let overallScore := calculateOverallScore tank sw
  let relativeScore := overallScore / tierAverage * 75
  pure (min 100 (max 0 relativeScore))

/-- Recompute-and-cache branch of ScoringService.calculateTypeScore. -/
def recomputeTypeAverage {ε : Type} (env : ScoringEnv ε) (tank : Tank) : Except ε ℚ := do
  let typeTanks ← env.typeTanksGet tank.type
  if typeTanks.length > 0 then
    let totalScore := (typeTanks.map fun t => t.score_overall.getD 0).sum
    let typeAverage := totalScore / typeTanks.length
    let _ ← env.typeCacheSet tank.type typeAverage
    pure typeAverage
  else
    pure 75

/-- ScoringService.calculateTypeScore with its awaited collaborator calls. -/
def calculateTypeScoreM {ε : Type} (env : ScoringEnv ε) (sw : ScoringWeights) (tank : Tank) :
    Except ε ℚ := do
  let cached ← env.typeCacheGet tank.type
  let typeAverage ←
    match cached with
    | some v => if v = 0 then recomputeTypeAverage env tank else pure v
    | none => recomputeTypeAverage env tank
  let overallScore := calculateOverallScore tank sw
  let relativeScore := overallScore / typeAverage * 75
  pure (min 100 (max 0 relativeScore))

/-- Body of the try block of ScoringService.updateTankScores: compute the
three scores, persist them, then invalidate the per-tank cache keys. -/
def updateTankScoresTry {ε : Type} (env : ScoringEnv ε) (sw : ScoringWeights)
    (customWeights : Option ScoringWeights) (tank : Tank) : Except ε (Option Tank) := do
  let weights := customWeights.getD sw
  let overallScore := calculateOverallScore tank weights
  let tierScore ← calculateTierScoreM env sw tank
  let typeScore ← calculateTypeScoreM env sw tank
  let updatedTank ← env.persistScores tank.id overallScore tierScore typeScore
  let _ ← env.invalidateScoreCache tank
  pure updatedTank

/-- ScoringService.updateTankScores: the try/catch wrapper that turns every
rejection of the body into a resolved null. -/
def updateTankScores {ε : Type} (env : ScoringEnv ε) (sw : ScoringWeights)
    (customWeights : Option ScoringWeights) (tank : Tank) : Except ε (Option Tank) :=
  match updateTankScoresTry env sw customWeights tank with
  | Except.ok v => Except.ok v
  | Except.error _ => Except.ok none

/-
The bulk recalculation driver, ScoringService.recalculateAllScores.
The storage collaborator serves pages of the tank table ordered by id
ascending with LIMIT 50 and OFFSET (page - 1) * 50 (TankModel.getTanks with
sort field id, order asc).  The table is modelled as a finite list.
-/

/-- The id-ascending ordering the driver requests from storage. -/
def sortById (L : List Tank) : List Tank :=
  L.insertionSort (fun a b => a.id ≤ b.id)

/-- The page of 50 tanks the driver fetches on iteration n (page number
n + 1 in the source, which starts its page counter at 1). -/
def tanksPage (L : List Tank) (n : ℕ) : List Tank :=
  ((sortById L).drop (n * 50)).take 50

/-- Loop skeleton of recalculateAllScores, parameterized by the per-tank
action of the loop body: fetch page n, stop when it is empty, otherwise fold
the action over the page and continue with the next page. -/
def recalcLoopGen {α : Type} (g : α → Tank → α) (L : List Tank) (n : ℕ) (acc : α) : α :=
  if h : (tanksPage L n).length = 0 then acc
  else recalcLoopGen g L (n + 1) ((tanksPage L n).foldl g acc)
termination_by (sortById L).length - n * 50
decreasing_by
  simp only [tanksPage, List.length_take, List.length_drop] at h
  omega

/-- Per-tank body of the driver loop: the try/catch around the awaited
updateTankScores call, incrementing the updated counter on resolution and
the errors counter on rejection. -/
def processTank {ε : Type} (env : ScoringEnv ε) (sw : ScoringWeights)
    (customWeights : Option ScoringWeights) (acc : ℕ × ℕ) (tank : Tank) : ℕ × ℕ :=
  match updateTankScores env sw customWeights tank with
  | Except.ok _ => (acc.1 + 1, acc.2)
  | Except.error _ => (acc.1, acc.2 + 1)

/-- ScoringService.recalculateAllScores: run the paged loop from the first
page with both counters at 0 and return (updated, errors).  The trailing
global cache invalidation is effect-only and does not change the returned
counters. -/
def recalculateAllScores {ε : Type} (env : ScoringEnv ε) (sw : ScoringWeights)
    (customWeights : Option ScoringWeights) (L : List Tank) : ℕ × ℕ :=
  recalcLoopGen (processTank env sw customWeights) L 0 (0, 0)

/-- Instrumentation instance of the same loop skeleton: record the tanks the
loop body visits, in visit order. -/
def visitedTanks (L : List Tank) : List Tank :=
  recalcLoopGen (fun acc t => acc ++ [t]) L 0 []

/-
Spec-side definitions for the aggregator claim (refinement): these follow
the wording of spec section 4.2, to be compared with calculateOverallScore,
which is translated from the source.
-/

/-- Modelled from the spec: rounding to 2 decimal places using standard
half-up rounding on the scaled integer. -/
def specRound2 (q : ℚ) : ℚ := ((⌊q * 100 + 1 / 2⌋ : ℤ) : ℚ) / 100

/-- Modelled from the spec: the sum over the six dimensions of subscore
times weight. -/
def specWeightedSum (tank : Tank) (w : ScoringWeights) : ℚ :=
  ([(calculateDamageScore tank, w.damage),
    (calculateWinRateScore tank, w.winRate),
    (calculateSurvivalScore tank, w.survival),
    (calculateArmorScore tank, w.armor),
    (calculateMobilityScore tank, w.mobility),
    (calculatePenetrationScore tank, w.penetration)].map fun p => p.1 * p.2).sum

/-- C6: for every vehicle and every complete weight set, the overall score
is the weighted sum of the six dimension sub-scores rounded to 2 decimal
places with half-up rounding on the scaled integer. -/
theorem calculateOverallScore_eq_spec_round2_weighted_sum (tank : Tank) (w : ScoringWeights) :
    calculateOverallScore tank w = specRound2 (specWeightedSum tank w) := by
  simp only [calculateOverallScore, specRound2, specWeightedSum, jsRound,
    List.map_cons, List.map_nil, List.sum_cons, List.sum_nil]
  congr 3
  ring

/-- The partial update that sets every recognized weight to 0; each value
is inside the closed interval from 0 to 1, so the update is valid. -/
def allZeroUpdate : PartialWeights :=
  ⟨some 0, some 0, some 0, some 0, some 0, some 0⟩

/-- C3 counterexample: after the valid partial update that sets all six
weights to 0, the installed weight set does not sum to 1: the merged total
is 0 and the renormalization divides by it.  In the rational model every
weight becomes 0 (division by zero is 0), so the sum is 0; in JavaScript
every weight becomes 0/0 = NaN, so the sum is NaN.  Under both readings the
sum is not 1, refuting the claim as stated. -/
theorem updateScoringWeights_allZero_sum_ne_one :
    sumWeights (updateScoringWeights defaultWeights allZeroUpdate) ≠ 1 := by
  norm_num [sumWeights, updateScoringWeights, mergeWeights, allZeroUpdate, defaultWeights]

/-- C3 amended: for every current weight set and every partial update whose
merged weights do not sum to 0, the weight set returned and installed by
updateScoringWeights sums to exactly 1. -/
theorem updateScoringWeights_sum_one_of_total_ne_zero (cur : ScoringWeights)
    (nw : PartialWeights) (h : sumWeights (mergeWeights cur nw) ≠ 0) :
    sumWeights (updateScoringWeights cur nw) = 1 := by
  unfold updateScoringWeights
  by_cases h1 : sumWeights (mergeWeights cur nw) = 1
  · simp [h1]
  · simp only [h1, if_false]
    unfold sumWeights at h ⊢
    field_simp

/-- A valid partial update touching only the damage weight. -/
def halfDamageUpdate : PartialWeights :=
  ⟨some 0.5, none, none, none, none, none⟩

/-- Witness for the amended C3 theorem at a concrete update. -/
theorem updateScoringWeights_sum_one_witness :
    sumWeights (mergeWeights defaultWeights halfDamageUpdate) ≠ 0 ∧
    sumWeights (updateScoringWeights defaultWeights halfDamageUpdate) = 1 :=
  ⟨by norm_num [sumWeights, mergeWeights, halfDamageUpdate, defaultWeights],
   updateScoringWeights_sum_one_of_total_ne_zero defaultWeights halfDamageUpdate
     (by norm_num [sumWeights, mergeWeights, halfDamageUpdate, defaultWeights])⟩

/-- C7: whenever the merged sum differs from 1, the renormalization divides
every weight by the merged total, including every weight the partial update
did not touch: an untouched weight w ends as w divided by the merged sum. -/
theorem updateScoringWeights_untouched_divided_by_total (cur : ScoringWeights)
    (nw : PartialWeights) (k : WeightKey) (hk : nw.get k = none)
    (h1 : sumWeights (mergeWeights cur nw) ≠ 1) :
    (updateScoringWeights cur nw).get k = cur.get k / sumWeights (mergeWeights cur nw) := by
  cases k <;>
    simp_all [updateScoringWeights, ScoringWeights.get, PartialWeights.get, mergeWeights]

/-- Witness for the C7 theorem: raising the damage weight to 0.5 makes the
merged sum 1.25, and the untouched winRate weight ends divided by 1.25. -/
theorem updateScoringWeights_untouched_witness :
    halfDamageUpdate.get WeightKey.winRate = none ∧
    sumWeights (mergeWeights defaultWeights halfDamageUpdate) ≠ 1 ∧
    (updateScoringWeights defaultWeights halfDamageUpdate).get WeightKey.winRate =
      defaultWeights.get WeightKey.winRate /
        sumWeights (mergeWeights defaultWeights halfDamageUpdate) :=
  ⟨rfl,
   by norm_num [sumWeights, mergeWeights, halfDamageUpdate, defaultWeights],
   updateScoringWeights_untouched_divided_by_total defaultWeights halfDamageUpdate
     WeightKey.winRate rfl
     (by norm_num [sumWeights, mergeWeights, halfDamageUpdate, defaultWeights])⟩

/-- Helper for C5: a request containing an invalid entry makes the
validation loop stop with an invalid-key or invalid-value response. -/
theorem checkWeightEntries_some_of_invalid :
    ∀ req : List (String × ReqVal), (∃ kv ∈ req, entryValidB kv = false) →
      ∃ k, checkWeightEntries req = some (WeightUpdateResponse.invalidWeightKey k) ∨
        checkWeightEntries req = some (WeightUpdateResponse.invalidWeightValue k) := by
  intro req
  induction req with
  | nil => rintro ⟨kv, hmem, _⟩; cases hmem
  | cons hd rest ih =>
    rintro ⟨kv, hmem, hinvalid⟩
    obtain ⟨key, v⟩ := hd
    by_cases hkey : key ∈ validKeys
    · cases v with
      | num q =>
        by_cases hq : q < 0 ∨ 1 < q
        · exact ⟨key, Or.inr (by simp [checkWeightEntries, hkey, hq])⟩
        · have hvalid : entryValidB (key, ReqVal.num q) = true := by
            push_neg at hq
            simp [entryValidB, hkey, hq.1, hq.2]
          have htail : ∃ kv ∈ rest, entryValidB kv = false := by
            rcases List.mem_cons.mp hmem with heq | htl
            · rw [heq] at hinvalid; rw [hinvalid] at hvalid; cases hvalid
            · exact ⟨kv, htl, hinvalid⟩
          obtain ⟨k, hk⟩ := ih htail
          refine ⟨k, ?_⟩
          simpa [checkWeightEntries, hkey, hq] using hk
      | other => exact ⟨key, Or.inr (by simp [checkWeightEntries, hkey])⟩
    · exact ⟨key, Or.inl (by simp [checkWeightEntries, hkey])⟩

/-- C5: a weight-update request containing an unrecognized key, a
non-numeric value, or a value outside the closed interval from 0 to 1 is
rejected with the matching error, and the current weight set is left
entirely unchanged: validation runs over the whole request before the
service is invoked, so there is no partial application. -/
theorem updateWeightsHandler_rejects_invalid_without_mutation (cur : ScoringWeights)
    (req : List (String × ReqVal)) (h : ∃ kv ∈ req, entryValidB kv = false) :
    (updateWeightsHandler cur req).2 = cur ∧
    ∃ k, (updateWeightsHandler cur req).1 = WeightUpdateResponse.invalidWeightKey k ∨
      (updateWeightsHandler cur req).1 = WeightUpdateResponse.invalidWeightValue k := by
  obtain ⟨k, hk | hk⟩ := checkWeightEntries_some_of_invalid req h <;>
    exact ⟨by simp [updateWeightsHandler, hk], ⟨k, by simp [updateWeightsHandler, hk]⟩⟩

/-- Witness for the C5 theorem: the request with the single unrecognized key
foo mapped to 0.5 is rejected and the default weight set is untouched. -/
theorem updateWeightsHandler_rejects_invalid_witness :
    (∃ kv ∈ [("foo", ReqVal.num 0.5)], entryValidB kv = false) ∧
    (updateWeightsHandler defaultWeights [("foo", ReqVal.num 0.5)]).2 = defaultWeights ∧
    ∃ k, (updateWeightsHandler defaultWeights [("foo", ReqVal.num 0.5)]).1 =
        WeightUpdateResponse.invalidWeightKey k ∨
      (updateWeightsHandler defaultWeights [("foo", ReqVal.num 0.5)]).1 =
        WeightUpdateResponse.invalidWeightValue k :=
  ⟨⟨("foo", ReqVal.num 0.5), by simp, by simp [entryValidB, validKeys]⟩,
   updateWeightsHandler_rejects_invalid_without_mutation defaultWeights _
     ⟨("foo", ReqVal.num 0.5), by simp, by simp [entryValidB, validKeys]⟩⟩

/-- C10: getCurrentWeights hands out the address of a freshly allocated copy
of the current weights object: the returned address differs from the one the
service keeps, the service state is otherwise unchanged, and mutating the
returned object afterwards does not change the weights any later read of the
service field observes. -/
theorem getCurrentWeights_fresh_copy (s : ServiceState) (h : s.cur < s.heap.length) :
    (getCurrentWeights s).2 ≠ s.cur ∧
    (getCurrentWeights s).1.cur = s.cur ∧
    readWeights (getCurrentWeights s).1 s.cur = readWeights s s.cur ∧
    ∀ w : ScoringWeights,
      readWeights (writeWeights (getCurrentWeights s).1 (getCurrentWeights s).2 w) s.cur =
        readWeights s s.cur := by
  refine ⟨by simp [getCurrentWeights]; omega, rfl, ?_, ?_⟩
  · simp only [getCurrentWeights, readWeights]
    exact List.getD_append _ _ _ _ h
  · intro w
    simp only [getCurrentWeights, writeWeights, readWeights, List.getD,
      List.get?_eq_getElem?]
    rw [List.getElem?_set_ne (by omega), List.getElem?_append_left h]

/-- Witness for the C10 theorem on a one-cell heap. -/
theorem getCurrentWeights_fresh_copy_witness :
    (0 : ℕ) < ([defaultWeights] : List ScoringWeights).length ∧
    (getCurrentWeights ⟨[defaultWeights], 0⟩).2 ≠ 0 ∧
    readWeights
      (writeWeights (getCurrentWeights ⟨[defaultWeights], 0⟩).1
        (getCurrentWeights ⟨[defaultWeights], 0⟩).2
        ⟨1, 0, 0, 0, 0, 0⟩) 0 =
      readWeights ⟨[defaultWeights], 0⟩ 0 :=
  ⟨by simp,
   (getCurrentWeights_fresh_copy ⟨[defaultWeights], 0⟩ (by simp)).1,
   (getCurrentWeights_fresh_copy ⟨[defaultWeights], 0⟩ (by simp)).2.2.2 ⟨1, 0, 0, 0, 0, 0⟩⟩

/-- Helper: the try/catch wrapper of updateTankScores resolves for every
collaborator behaviour. -/
theorem updateTankScoresOk {ε : Type} (env : ScoringEnv ε) (sw : ScoringWeights)
    (customWeights : Option ScoringWeights) (tank : Tank) :
    ∃ r, updateTankScores env sw customWeights tank = Except.ok r := by
  unfold updateTankScores
  cases updateTankScoresTry env sw customWeights tank with
  | ok v => exact ⟨v, rfl⟩
  | error e => exact ⟨none, rfl⟩

/-- C9: updateTankScores never propagates an exception: for every vehicle
and every behaviour of the persistence and cache collaborators, including
every rejection pattern, the call resolves (on failure with null). -/
theorem updateTankScores_never_throws {ε : Type} (env : ScoringEnv ε) (sw : ScoringWeights)
    (customWeights : Option ScoringWeights) (tank : Tank) :
    ∃ r, updateTankScores env sw customWeights tank = Except.ok r :=
  updateTankScoresOk env sw customWeights tank

/-- Helper: the loop body of the driver always takes the resolution branch
and increments the updated counter, because updateTankScores never rejects. -/
theorem processTank_eq {ε : Type} (env : ScoringEnv ε) (sw : ScoringWeights)
    (customWeights : Option ScoringWeights) (acc : ℕ × ℕ) (tank : Tank) :
    processTank env sw customWeights acc tank = (acc.1 + 1, acc.2) := by
  obtain ⟨r, hr⟩ := updateTankScoresOk env sw customWeights tank
  simp [processTank, hr]

/-- Helper: folding the driver body over a page adds the page length to the
updated counter and leaves the errors counter unchanged. -/
theorem foldl_processTank {ε : Type} (env : ScoringEnv ε) (sw : ScoringWeights)
    (customWeights : Option ScoringWeights) :
    ∀ (ts : List Tank) (acc : ℕ × ℕ),
      ts.foldl (processTank env sw customWeights) acc = (acc.1 + ts.length, acc.2) := by
  intro ts
  induction ts with
  | nil => intro acc; simp
  | cons t rest ih =>
    intro acc
    simp only [List.foldl_cons, processTank_eq, ih, List.length_cons, Prod.mk.injEq]
    exact ⟨by omega, trivial⟩

/-- Helper: from any page index, the driver loop counts every remaining tank
as updated and never increments the errors counter. -/
theorem recalcLoopGen_processTank {ε : Type} (env : ScoringEnv ε) (sw : ScoringWeights)
    (customWeights : Option ScoringWeights) (L : List Tank) :
    ∀ (n : ℕ) (acc : ℕ × ℕ),
      recalcLoopGen (processTank env sw customWeights) L n acc =
        (acc.1 + ((sortById L).drop (n * 50)).length, acc.2) := by
  suffices h : ∀ (m n : ℕ) (acc : ℕ × ℕ), (sortById L).length - n * 50 ≤ m →
      recalcLoopGen (processTank env sw customWeights) L n acc =
        (acc.1 + ((sortById L).drop (n * 50)).length, acc.2) by
    exact fun n acc => h ((sortById L).length - n * 50) n acc le_rfl
  intro m
  induction m with
  | zero =>
    intro n acc hm
    rw [recalcLoopGen]
    have hdrop : (sortById L).drop (n * 50) = [] := List.drop_eq_nil_of_le (by omega)
    simp [tanksPage, hdrop]
  | succ m ih =>
    intro n acc hm
    rw [recalcLoopGen]
    by_cases hlen : (tanksPage L n).length = 0
    · have hdrop : (sortById L).drop (n * 50) = [] := by
        rcases List.take_eq_nil_iff.mp (List.length_eq_zero.mp hlen) with h50 | h
        · cases h50
        · exact h
      simp [hlen, hdrop]
    · have hlt : n * 50 < (sortById L).length := by
        simp only [tanksPage, List.length_take, List.length_drop] at hlen
        omega
      rw [dif_neg hlen, foldl_processTank, ih (n + 1) _ (by omega)]
      simp only [tanksPage, List.length_take, List.length_drop, Prod.mk.injEq]
      exact ⟨by omega, trivial⟩

/-- Helper: the instrumented loop appends exactly the remaining suffix of
the id-sorted collection. -/
theorem recalcLoopGen_visits (L : List Tank) :
    ∀ (n : ℕ) (acc : List Tank),
      recalcLoopGen (fun a t => a ++ [t]) L n acc = acc ++ (sortById L).drop (n * 50) := by
  suffices h : ∀ (m n : ℕ) (acc : List Tank), (sortById L).length - n * 50 ≤ m →
      recalcLoopGen (fun a t => a ++ [t]) L n acc = acc ++ (sortById L).drop (n * 50) by
    exact fun n acc => h ((sortById L).length - n * 50) n acc le_rfl
  intro m
  induction m with
  | zero =>
    intro n acc hm
    rw [recalcLoopGen]
    have hdrop : (sortById L).drop (n * 50) = [] := List.drop_eq_nil_of_le (by omega)
    simp [tanksPage, hdrop]
  | succ m ih =>
    intro n acc hm
    rw [recalcLoopGen]
    by_cases hlen : (tanksPage L n).length = 0
    · have hdrop : (sortById L).drop (n * 50) = [] := by
        rcases List.take_eq_nil_iff.mp (List.length_eq_zero.mp hlen) with h50 | h
        · cases h50
        · exact h
      simp [hlen, hdrop]
    · have hlt : n * 50 < (sortById L).length := by
        simp only [tanksPage, List.length_take, List.length_drop] at hlen
        omega
      have hfold : ∀ (ts : List Tank) (a : List Tank),
          ts.foldl (fun a t => a ++ [t]) a = a ++ ts := by
        intro ts
        induction ts with
        | nil => intro a; simp
        | cons x xs ihx => intro a; simp [ihx]
      rw [dif_neg hlen, hfold, ih (n + 1) _ (by omega), List.append_assoc]
      congr 1
      simp only [tanksPage]
      rw [show (n + 1) * 50 = n * 50 + 50 by ring, ← List.drop_drop,
        List.take_append_drop]

instance : IsTotal Tank (fun a b => a.id ≤ b.id) :=
  ⟨fun a b => Int.le_total a.id b.id⟩

instance : IsTrans Tank (fun a b => a.id ≤ b.id) :=
  ⟨fun _ _ _ hab hbc => le_trans hab hbc⟩

/-- C8: the bulk recalculation loop over any finite collection visits
exactly the tanks of the collection, once each (the visit sequence is a
permutation of the collection), in id-ascending page order, and the loop
returns as soon as a fetched page is empty, whatever the loop body is. -/
theorem recalc_driver_full_coverage (L : List Tank) :
    (visitedTanks L).Perm L ∧
    (visitedTanks L).Sorted (fun a b => a.id ≤ b.id) ∧
    ∀ {α : Type} (g : α → Tank → α) (n : ℕ) (acc : α),
      (tanksPage L n).length = 0 → recalcLoopGen g L n acc = acc := by
  have hvis : visitedTanks L = sortById L := by
    rw [visitedTanks, recalcLoopGen_visits]
    simp
  refine ⟨?_, ?_, ?_⟩
  · rw [hvis]; exact List.perm_insertionSort _ L
  · rw [hvis]; exact List.sorted_insertionSort _ L
  · intro α g n acc h
    rw [recalcLoopGen, dif_pos h]

/-- A concrete vehicle with the attribute values of the spec regression
fixture (damage 400, rate of fire 6, health 1800, armor 300/200/100, speed
45, penetration 200, engine power 650, heavy). -/
def sampleTank : Tank :=
  ⟨1, "Fixture", 8, TankType.heavy, "ussr", false, 1800, 300, 200, 100,
    400, 200, 6, 45, 650, none, none, none⟩

/-- A second concrete vehicle with a different id. -/
def demoTank : Tank :=
  ⟨2, "Demo", 5, TankType.medium, "usa", false, 1500, 100, 80, 40,
    240, 180, 8, 50, 500, none, none, none⟩

/-- Witness for the C8 theorem on a concrete two-tank collection: the loop
visits both tanks, and from an index whose page is empty it returns the
accumulator unchanged. -/
theorem recalc_driver_full_coverage_witness :
    (visitedTanks [demoTank, sampleTank]).Perm [demoTank, sampleTank] ∧
    recalcLoopGen (fun (a : List Tank) t => a ++ [t]) [demoTank, sampleTank] 7 [] =
      ([] : List Tank) :=
  ⟨(recalc_driver_full_coverage [demoTank, sampleTank]).1,
   (recalc_driver_full_coverage [demoTank, sampleTank]).2.2 _ 7 []
     (by simp [tanksPage, sortById, List.insertionSort, List.orderedInsert,
       demoTank, sampleTank])⟩

/-- Storage and cache oracle in which every score-persistence write rejects
(the PersistenceError scenario of the spec): cohort queries and cache calls
succeed, TankModel.updateTankScores always rejects. -/
def failingPersistEnv : ScoringEnv Unit :=
  { tierCacheGet := fun _ => Except.ok none
    typeCacheGet := fun _ => Except.ok none
    tierTanksGet := fun _ => Except.ok [sampleTank]
    typeTanksGet := fun _ => Except.ok [sampleTank]
    tierCacheSet := fun _ _ => Except.ok ()
    typeCacheSet := fun _ _ => Except.ok ()
    persistScores := fun _ _ _ _ => Except.error ()
    invalidateScoreCache := fun _ => Except.ok () }

/-- C1: with a one-vehicle collection whose score persistence rejects, the
driver still reports one update and zero errors, because the catch inside
updateTankScores swallows the failure and resolves with null, so the catch
branch of the driver loop never runs; the claimed summary for one vehicle
with one persistence failure would be zero updates and one error.  The
second conjunct shows the failing vehicle resolves to null (nothing was
persisted for it) rather than rejecting. -/
theorem recalculateAllScores_counts_failure_as_updated :
    recalculateAllScores failingPersistEnv defaultWeights none [sampleTank] = (1, 0) ∧
    updateTankScores failingPersistEnv defaultWeights none sampleTank = Except.ok none ∧
    ((1 : ℕ), (0 : ℕ)) ≠ ((0 : ℕ), (1 : ℕ)) := by
  refine ⟨?_, ?_, by decide⟩
  · rw [recalculateAllScores, recalcLoopGen_processTank]
    simp [sortById, List.insertionSort, List.orderedInsert]
  · rfl

/-- A vehicle whose stored overall score is 0, making its cohort average 0. -/
def zeroScoreTank : Tank :=
  ⟨3, "Zeroed", 8, TankType.heavy, "ussr", false, 0, 0, 0, 0,
    0, 0, 0, 0, 0, some 0, none, none⟩

/-- C2: the cohort-average block only applies the 75 fallback to an empty
cohort; a non-empty cohort whose stored overall scores are all 0 yields the
average 0, which calculateTierScore then uses as divisor, so the relative
score becomes overall / 0 * 75 instead of the claimed fallback behaviour
(in JavaScript that division yields Infinity, clamped to 100, or NaN when
the overall score is also 0; in this exact model it yields 0; under neither
reading is the average replaced by 75). -/
theorem cohortAverage_zero_cohort_used_not_fallback :
    cohortAverage none [zeroScoreTank] = 0 ∧
    cohortAverage none ([] : List Tank) = 75 ∧
    calculateTierScore defaultWeights none [zeroScoreTank] sampleTank =
      min 100 (max 0 (calculateOverallScore sampleTank defaultWeights / 0 * 75)) ∧
    (0 : ℚ) ≠ 75 := by
  have h0 : cohortAverage none [zeroScoreTank] = 0 := by
    simp [cohortAverage, zeroScoreTank]
  refine ⟨h0, by simp [cohortAverage], ?_, by norm_num⟩
  simp only [calculateTierScore]
  rw [h0]

/-- Non-negativity of every raw attribute a scorer reads (the pathological
domain of the claim: zero attributes and attributes beyond the reference
ceilings are allowed). -/
def nonnegAttrs (t : Tank) : Prop :=
  0 ≤ t.health ∧ 0 ≤ t.armor_front ∧ 0 ≤ t.armor_side ∧ 0 ≤ t.armor_rear ∧
  0 ≤ t.gun_damage ∧ 0 ≤ t.gun_penetration ∧ 0 ≤ t.gun_rof ∧
  0 ≤ t.mobility_speed ∧ 0 ≤ t.mobility_power

/-- A sub-score value between 0 and 100. -/
def scoreInRange (q : ℚ) : Prop := 0 ≤ q ∧ q ≤ 100

theorem min100_inRange {x : ℚ} (hx : 0 ≤ x) : scoreInRange (min 100 x) :=
  ⟨le_min (by norm_num) hx, min_le_left _ _⟩

theorem calculateDamageScore_inRange (t : Tank) (h : nonnegAttrs t) :
    scoreInRange (calculateDamageScore t) := by
  obtain ⟨hh, haf, has, har, hgd, hgp, hgr, hms, hmp⟩ := h
  simp only [calculateDamageScore, referenceValues]
  apply min100_inRange
  have h1 : 0 ≤ t.gun_damage / 750 := div_nonneg hgd (by norm_num)
  have h2 : 0 ≤ t.gun_damage * t.gun_rof / (750 * 10) :=
    div_nonneg (mul_nonneg hgd hgr) (by norm_num)
  nlinarith [h1, h2]

theorem calculateSurvivalScore_inRange (t : Tank) (h : nonnegAttrs t) :
    scoreInRange (calculateSurvivalScore t) := by
  obtain ⟨hh, haf, has, har, hgd, hgp, hgr, hms, hmp⟩ := h
  simp only [calculateSurvivalScore, referenceValues]
  apply min100_inRange
  have h1 : 0 ≤ t.health / 2500 := div_nonneg hh (by norm_num)
  have h2 : 0 ≤ (t.armor_front + t.armor_side + t.armor_rear) / 3 / 300 :=
    div_nonneg (div_nonneg (by linarith) (by norm_num)) (by norm_num)
  nlinarith [h1, h2]

theorem calculateArmorScore_inRange (t : Tank) (h : nonnegAttrs t) :
    scoreInRange (calculateArmorScore t) := by
  obtain ⟨hh, haf, has, har, hgd, hgp, hgr, hms, hmp⟩ := h
  simp only [calculateArmorScore, referenceValues]
  apply min100_inRange
  have h1 : 0 ≤ t.armor_front / 300 := div_nonneg haf (by norm_num)
  have h2 : 0 ≤ t.armor_side / 300 := div_nonneg has (by norm_num)
  have h3 : 0 ≤ t.armor_rear / 300 := div_nonneg har (by norm_num)
  nlinarith [h1, h2, h3]

theorem calculateMobilityScore_inRange (t : Tank) (h : nonnegAttrs t) :
    scoreInRange (calculateMobilityScore t) := by
  obtain ⟨hh, haf, has, har, hgd, hgp, hgr, hms, hmp⟩ := h
  simp only [calculateMobilityScore, referenceValues]
  apply min100_inRange
  have h1 : 0 ≤ t.mobility_speed / 70 := div_nonneg hms (by norm_num)
  have h2 : 0 ≤ t.mobility_power / 1000 := div_nonneg hmp (by norm_num)
  have h3 : 0 ≤ min 1 (t.mobility_power / (t.health / 1000) / 30) :=
    le_min (by norm_num)
      (div_nonneg (div_nonneg hmp (div_nonneg hh (by norm_num))) (by norm_num))
  nlinarith [h1, h2, h3]

theorem calculatePenetrationScore_inRange (t : Tank) (h : nonnegAttrs t) :
    scoreInRange (calculatePenetrationScore t) := by
  obtain ⟨hh, haf, has, har, hgd, hgp, hgr, hms, hmp⟩ := h
  simp only [calculatePenetrationScore, referenceValues]
  apply min100_inRange
  have h1 : 0 ≤ t.gun_penetration / 300 := div_nonneg hgp (by norm_num)
  nlinarith [h1]

theorem calculateWinRateScore_inRange (t : Tank) (h : nonnegAttrs t) :
    scoreInRange (calculateWinRateScore t) := by
  have hd := (calculateDamageScore_inRange t h).1
  have hs := (calculateSurvivalScore_inRange t h).1
  have hm := (calculateMobilityScore_inRange t h).1
  have hb : 0 ≤ (calculateDamageScore t + calculateSurvivalScore t +
      calculateMobilityScore t) / 3 := div_nonneg (by linarith) (by norm_num)
  cases htype : t.type <;>
    · simp only [calculateWinRateScore, htype]
      exact min100_inRange (mul_nonneg hb (by norm_num))

/-- Agreement of the two mobility models on positive health: no divisor is
zero, so no IEEE special value arises and the JsNum computation is the exact
rational one. -/
theorem jsMobilityScore_eq_of_pos_health (t : Tank) (hh : 0 < t.health) :
    jsMobilityScore t = JsNum.num (calculateMobilityScore t) := by
  have h1000 : t.health / 1000 ≠ 0 := by positivity
  have h70 : (70 : ℚ) ≠ 0 := by norm_num
  have h1000c : (1000 : ℚ) ≠ 0 := by norm_num
  have h30 : (30 : ℚ) ≠ 0 := by norm_num
  simp [jsMobilityScore, calculateMobilityScore, JsNum.div, JsNum.mul,
    JsNum.add, JsNum.jsMin, referenceValues, h1000, h70, h1000c, h30]

/-- C4 counterexample: on the vehicle whose attributes are all zero the
mobility scorer computes power / (health / 1000) = 0 / 0, which is NaN in
JavaScript; NaN propagates through the weighted sum and through Math.min,
so the scorer returns NaN, which is not a value between 0 and 100,
refuting the claim for pathological zero-attribute vehicles. -/
theorem jsMobilityScore_zero_tank_nan :
    jsMobilityScore zeroScoreTank = JsNum.nan ∧
    JsNum.isScoreInRange (jsMobilityScore zeroScoreTank) = false := by
  have h : jsMobilityScore zeroScoreTank = JsNum.nan := by
    norm_num [jsMobilityScore, zeroScoreTank, JsNum.div, JsNum.mul,
      JsNum.add, JsNum.jsMin, referenceValues]
  exact ⟨h, by rw [h]; rfl⟩

/-- C4 amended: for every vehicle with non-negative attributes (zero values
and values beyond the reference ceilings allowed) and positive health, each
of the six per-dimension scorers returns a value between 0 and 100 (the
final output is clamped, not the intermediate ratios), and on this domain
the mobility computation produces no IEEE special value.  The positive
health hypothesis is what the counterexample forces: with zero health and
zero engine power the mobility and win-rate scorers return NaN. -/
theorem perDimension_scores_in_range_of_pos_health (t : Tank) (hattr : nonnegAttrs t)
    (hh : 0 < t.health) :
    scoreInRange (calculateDamageScore t) ∧
    scoreInRange (calculateSurvivalScore t) ∧
    scoreInRange (calculateArmorScore t) ∧
    scoreInRange (calculateMobilityScore t) ∧
    scoreInRange (calculatePenetrationScore t) ∧
    scoreInRange (calculateWinRateScore t) ∧
    jsMobilityScore t = JsNum.num (calculateMobilityScore t) :=
  ⟨calculateDamageScore_inRange t hattr,
   calculateSurvivalScore_inRange t hattr,
   calculateArmorScore_inRange t hattr,
   calculateMobilityScore_inRange t hattr,
   calculatePenetrationScore_inRange t hattr,
   calculateWinRateScore_inRange t hattr,
   jsMobilityScore_eq_of_pos_health t hh⟩

/-- Witness for the amended C4 theorem at the spec fixture vehicle. -/
theorem perDimension_scores_in_range_witness :
    nonnegAttrs sampleTank ∧ 0 < sampleTank.health ∧
    scoreInRange (calculateDamageScore sampleTank) ∧
    jsMobilityScore sampleTank = JsNum.num (calculateMobilityScore sampleTank) :=
  ⟨by norm_num [nonnegAttrs, sampleTank],
   by norm_num [sampleTank],
   (perDimension_scores_in_range_of_pos_health sampleTank
     (by norm_num [nonnegAttrs, sampleTank]) (by norm_num [sampleTank])).1,
   (perDimension_scores_in_range_of_pos_health sampleTank
     (by norm_num [nonnegAttrs, sampleTank]) (by norm_num [sampleTank])).2.2.2.2.2.2⟩

end WotBlitz
